import Mathlib

/-!
# OTEL: a two-hop postal-code to temperature pipeline

Shallow embedding of `Service-A/main.go` (the edge service) and
`Service-B/main.go` (the downstream service).

Every handler is a pure function from the request and the answers of the
network to the reply written on the `http.ResponseWriter` together with the
ordered log of the effects it performed (spans started and ended, calls of
`http.Get`).  Temperatures range over an arbitrary carrier `F` with an
addition and a constant `273`; the Go code instantiates it with `float64`.
-/

set_option linter.dupNamespace false

namespace OTEL

/-! ## Go library values used by both services -/

namespace Go

/-- Bytes of the UTF-8 encoding of a character; a Go string is its byte sequence. -/
def utf8Encode (c : Char) : List Nat :=
  let n := c.toNat
  if n < 0x80 then [n]
  else if n < 0x800 then [0xC0 + n / 64, 0x80 + n % 64]
  else if n < 0x10000 then [0xE0 + n / 4096, 0x80 + n / 64 % 64, 0x80 + n % 64]
  else [0xF0 + n / 262144, 0x80 + n / 4096 % 64, 0x80 + n / 64 % 64, 0x80 + n % 64]

/-- Go builtin `len` on a string: its number of bytes. -/
def len (s : String) : Nat := (s.data.map fun c => (utf8Encode c).length).sum

/-- One double quote character. -/
def dquote : String := String.singleton (Char.ofNat 34)

/-- Rendering of `%q` for a string that has no character needing an escape
(every URL built in this repository from a validated postal code). -/
def Quote (s : String) : String := dquote ++ s ++ dquote

/-- Text of `(*url.Error).Error()` for the operation `Get`:
`fmt.Sprintf("%s %q: %s", e.Op, e.URL, e.Err)`.  Every error returned by
`http.Get` is of this type. -/
def urlError (url inner : String) : String := "Get " ++ Quote url ++ ": " ++ inner

/-- The package `fmt` called with a format string and no operand (`fmt.Errorf(res.Status)`).
The text before the first `%` is copied unchanged.  What the verb machinery prints
from the first `%` onwards is the parameter `verbs`. -/
def Errorf (verbs : List Char → List Char) (format : String) : String :=
  let lit := format.data.takeWhile (fun c => c != '%')
  let rest := format.data.dropWhile (fun c => c != '%')
  String.mk (lit ++ (if rest.isEmpty then [] else verbs rest))

/-- Failures of `encoding/json` (and of reading the body it is fed from). -/
inductive DecodeError
  | eof
  | unexpectedEOF
  | endOfInput
  | maxDepth
  | invalidCharacter (quoted context : String)
  | cannotUnmarshal (value target : String)
  deriving DecidableEq, Repr

/-- Text of `err.Error()` for a decoding failure. -/
def DecodeError.Error : DecodeError → String
  | .eof => "EOF"
  | .unexpectedEOF => "unexpected EOF"
  | .endOfInput => "unexpected end of JSON input"
  | .maxDepth => "exceeded max depth"
  | .invalidCharacter quoted context => "invalid character " ++ quoted ++ " " ++ context
  | .cannotUnmarshal value target => "json: cannot unmarshal " ++ value ++ " into Go " ++ target

/-- The client side view of `http.Response`.  `Body` is the outcome of reading the
body and decoding it into the Go value the caller asks for. -/
structure Response (α : Type) where
  Status : String
  StatusCode : Nat
  Body : Except DecodeError α

/-- The pair `(resp, err)` returned by `http.Get`: `failed err` is `(nil, err)` with
the text of `err.Error()`, `replied res` is `(res, nil)`. -/
inductive GetResult (α : Type)
  | failed (err : String)
  | replied (res : Response α)

/-- What the network does with one request: nothing usable comes back (dial,
read or protocol failure with its text), or a response arrives whose status line
reads `status` after the protocol token. -/
inductive Wire (α : Type)
  | unreachable (inner : String)
  | reply (status : String) (body : Except DecodeError α)

/-- Value of an ASCII decimal digit. -/
def digitVal (c : Char) : Option Nat :=
  if 48 ≤ c.toNat ∧ c.toNat ≤ 57 then some (c.toNat - 48) else none

/-- The call `strconv.Atoi` on a token of three bytes, followed by the rejection of
negative results that `http.ReadResponse` applies. -/
def Atoi3 : List Char → Option Nat
  | [a, b, c] =>
    match digitVal b, digitVal c with
    | some y, some z =>
      match digitVal a with
      | some x => some (100 * x + 10 * y + z)
      | none =>
        if a = '+' then some (10 * y + z)
        else if a = '-' ∧ y = 0 ∧ z = 0 then some 0
        else none
    | _, _ => none
  | _ => none

/-- Status code read by `http.ReadResponse` from the already left-trimmed status
text: the token before the first blank must have three bytes and be a number. -/
def parseStatusCode (status : String) : Option Nat :=
  let tok := status.data.takeWhile (fun c => c != ' ')
  if len (String.mk tok) ≠ 3 then none else Atoi3 tok

/-- The function `http.Get` seen from its caller: the answer of the network turned
into the pair Go returns. -/
def Get {α : Type} (url : String) : Wire α → GetResult α
  | .unreachable inner => .failed (urlError url inner)
  | .reply status body =>
    let st := String.mk (status.data.dropWhile (fun c => c == ' '))
    match parseStatusCode st with
    | none =>
      .failed (urlError url ("malformed HTTP status code "
        ++ Quote (String.mk (st.data.takeWhile (fun c => c != ' ')))))
    | some code => .replied { Status := st, StatusCode := code, Body := body }

/-- Upper-case hexadecimal digit. -/
def upperhex (n : Nat) : Char := "0123456789ABCDEF".data.getD n '0'

/-- Bytes that `url.QueryEscape` rewrites: everything but ASCII letters, digits and
the four marks `-`, `_`, `.`, `~`. -/
def shouldEscape (b : Nat) : Bool :=
  !((97 ≤ b && b ≤ 122) || (65 ≤ b && b ≤ 90) || (48 ≤ b && b ≤ 57)
    || b == 45 || b == 95 || b == 46 || b == 126)

/-- Escaped form of one byte for a query component. -/
def escapeByte (b : Nat) : List Char :=
  if b = 32 then ['+']
  else if shouldEscape b then ['%', upperhex (b / 16), upperhex (b % 16)]
  else [Char.ofNat b]

/-- The function `url.QueryEscape`. -/
def QueryEscape (s : String) : String :=
  String.mk (s.data.foldr
    (fun c acc => (utf8Encode c).foldr (fun b acc2 => escapeByte b ++ acc2) acc) [])

end Go

/-- The three hosts this repository sends requests to. -/
inductive Host
  | goappB
  | viacep
  | weatherapi
  deriving DecidableEq, Repr

/-- Observable effects of a handler, in program order.  A span is named by the name
it was started with; `parent` is the span found in the context handed to `Start`.
`httpGet` records a call of `http.Get` with the header fields the caller put on
the request. -/
inductive Event
  | spanStart (name : String) (parent : Option String)
  | spanEnd (name : String)
  | httpGet (host : Host) (url : String) (header : List (String × String))
  deriving DecidableEq, Repr

/-- Names of the spans started in a log, in order. -/
def spansOpened : List Event → List String
  | [] => []
  | .spanStart name _ :: es => name :: spansOpened es
  | _ :: es => spansOpened es

/-- Names of the spans ended in a log, in order. -/
def spansClosed : List Event → List String
  | [] => []
  | .spanEnd name :: es => name :: spansClosed es
  | _ :: es => spansClosed es

/-- Whether an event is a call of `http.Get` to the given host. -/
def isCallTo (h : Host) : Event → Bool
  | .httpGet h2 _ _ => h2 == h
  | _ => false

/-- Number of calls of `http.Get` to the given host in a log. -/
def callsTo (h : Host) (log : List Event) : Nat := (log.filter (isCallTo h)).length

/-- Number of calls of `http.Get` in a log, to any host. -/
def outboundCalls (log : List Event) : Nat :=
  callsTo .goappB log + callsTo .viacep log + callsTo .weatherapi log

/-- What a handler wrote as response body: nothing (`w.WriteHeader` only), a plain
text line (`http.Error`), or the JSON encoding of a value. -/
inductive Payload (α : Type)
  | empty
  | text (msg : String)
  | json (v : α)

/-- Status code and body of the response a handler wrote. -/
structure Reply (α : Type) where
  status : Nat
  body : Payload α

/-! ## Service A: the edge service -/

namespace ServiceA

/-- The struct `ResponseWeather`. -/
structure ResponseWeather (F : Type) where
  Celsius : F
  Fahrenheit : F
  Kelvin : F

/-- The incoming request: the outcome of decoding its body into `struct { Cep string }`. -/
structure Request where
  Body : Except Go.DecodeError String

/-- Consume exactly `n` characters of the class `\d` (ASCII decimal digits). -/
def matchDigits : Nat → List Char → Option (List Char)
  | 0, cs => some cs
  | _ + 1, [] => none
  | n + 1, c :: cs => if (Go.digitVal c).isSome then matchDigits n cs else none

/-- The function `isValidCEP`: the pattern `^\d{8}$` anchored at the start of the
text, eight digits, then the end of the text. -/
def isValidCEP (cep : String) : Bool :=
  match matchDigits 8 cep.data with
  | some [] => true
  | _ => false

/-- The function `requestServiceB`: a span that is ended at once, then one GET whose
request carries no header set by the caller. -/
def requestServiceB {F : Type} (verbs : List Char → List Char)
    (net : String → Go.Wire (Option (ResponseWeather F)))
    (ctx : Option String) (cep : String) :
    Except String (Option (ResponseWeather F)) × List Event :=
  let url := "http://goapp-b:8083?cep=" ++ cep
  let log := [Event.spanStart "Send request to Service B" ctx,
              Event.spanEnd "Send request to Service B",
              Event.httpGet .goappB url []]
  match Go.Get url (net url) with
  | .failed err => (.error err, log)
  | .replied res =>
    if res.StatusCode ≠ 200 then (.error (Go.Errorf verbs res.Status), log)
    else
      match res.Body with
      | .error e => (.error e.Error, log)
      | .ok result => (.ok result, log)

/-- The function `Handler` of the edge service. -/
def Handler {F : Type} (verbs : List Char → List Char)
    (net : String → Go.Wire (Option (ResponseWeather F))) (r : Request) :
    Reply (Option (ResponseWeather F)) × List Event :=
  match r.Body with
  | .error _ => ({ status := 400, body := .empty }, [])
  | .ok cep =>
    if !isValidCEP cep then ({ status := 422, body := .text "invalid zipcode" }, [])
    else
      let out := requestServiceB verbs net (some "start") cep
      let log := [Event.spanStart "start" none] ++ out.2 ++ [Event.spanEnd "start"]
      match out.1 with
      | .error err =>
        if err = "404 Not Found" then
          ({ status := 404, body := .text "cannot find zipcode" }, log)
        else
          ({ status := 400, body := .text "external error - service B" }, log)
      | .ok response => ({ status := 200, body := .json response }, log)

end ServiceA

/-! ## Service B: the downstream service -/

namespace ServiceB

/-- The struct `Cep`, the payload of the address provider. -/
structure Cep where
  Cep : String
  Logradouro : String
  Complemento : String
  Bairro : String
  Localidade : String
  Uf : String
  Unidade : String
  Ibge : String
  Gia : String
  Erro : String

/-- The struct `Current`, reduced to the two fields the handler reads. -/
structure Current (F : Type) where
  TempC : F
  TempF : F

/-- The struct `Weather`, reduced to the field `Current`. -/
structure Weather (F : Type) where
  Current : Current F

/-- The struct `Response`. -/
structure Response (F : Type) where
  Celsius : F
  Fahrenheit : F
  Kelvin : F

/-- The incoming request: `r.URL.Path`, `r.URL.Query().Get("cep")` and the header
fields it arrived with. -/
structure Request where
  Path : String
  cep : String
  Header : List (String × String)

/-- Answers of the two providers, by URL. -/
structure Net (F : Type) where
  viacep : String → Go.Wire Cep
  weatherapi : String → Go.Wire (Weather F)

/-- Result of a Go function returning `(*T, error)` that may also stop with a
run-time panic. -/
inductive Outcome (α : Type)
  | ok (v : α)
  | err (e : String)
  | panicked

/-- The function `GetLocation`. -/
def GetLocation {F : Type} (net : Net F) (ctx : Option String) (cep : String) :
    Except String Cep × List Event :=
  let url := "http://viacep.com.br/ws/" ++ cep ++ "/json/"
  let log := [Event.spanStart "getting location" ctx,
              Event.httpGet .viacep url [],
              Event.spanEnd "getting location"]
  match Go.Get url (net.viacep url) with
  | .failed err => (.error err, log)
  | .replied resp =>
    match resp.Body with
    | .error e => (.error e.Error, log)
    | .ok address => (.ok address, log)

/-- The function `GetWeather`.  `resp.StatusCode` is read before `err` is looked at,
so with `resp == nil` the function panics on the nil pointer; the deferred
`span.End()` still runs. -/
def GetWeather {F : Type} (net : Net F) (ctx : Option String) (city : String) :
    Outcome (Current F) × List Event :=
  let formatCity := Go.QueryEscape city
  let url := "http://api.weatherapi.com/v1/current.json?q=" ++ formatCity
    ++ "&key=f32a666acf614d978db184424251103"
  let log := [Event.spanStart "getting weather" ctx,
              Event.httpGet .weatherapi url [],
              Event.spanEnd "getting weather"]
  match Go.Get url (net.weatherapi url) with
  | .failed _ => (.panicked, log)
  | .replied resp =>
    if resp.StatusCode ≠ 200 then (.err "error to get weather", log)
    else
      match resp.Body with
      | .error e => (.err e.Error, log)
      | .ok weather => (.ok weather.Current, log)

/-- The function `Handler` of the downstream service.  The reply is `none` when the
handler panicked before writing a response.  The span is started from
`r.Context()`, which holds no span: the header of the request is not consulted. -/
def Handler {F : Type} [Add F] [OfNat F 273] (net : Net F) (r : Request) :
    Option (Reply (Response F)) × List Event :=
  if r.Path ≠ "/" then (some { status := 404, body := .empty }, [])
  else
    let cep := r.cep
    let opened := [Event.spanStart "start" none]
    let closed := [Event.spanEnd "start"]
    if cep = "" ∨ Go.len cep ≠ 8 then
      (some { status := 422, body := .text "invalid zipcode" }, opened ++ closed)
    else
      let loc := GetLocation net (some "start") cep
      match loc.1 with
      | .error _ => (some { status := 400, body := .empty }, opened ++ loc.2 ++ closed)
      | .ok address =>
        if address.Erro = "true" then
          (some { status := 404, body := .text "cannot find zipcode" },
            opened ++ loc.2 ++ closed)
        else
          let city := address.Localidade
          let wea := GetWeather net (some "start") city
          let log := opened ++ loc.2 ++ wea.2 ++ closed
          match wea.1 with
          | .panicked => (none, log)
          | .err _ => (some { status := 400, body := .text "error to get weather" }, log)
          | .ok weather =>
            (some { status := 200,
                    body := .json { Celsius := weather.TempC,
                                    Fahrenheit := weather.TempF,
                                    Kelvin := weather.TempC + 273 } }, log)

end ServiceB

/-! ## The hop between the two services -/

/-- Reason phrases of `http.StatusText` for the four status codes the handlers of
this repository write. -/
def StatusText : Nat → String
  | 200 => "OK"
  | 400 => "Bad Request"
  | 404 => "Not Found"
  | 422 => "Unprocessable Entity"
  | _ => ""

/-- Status text the Go server puts on the wire after the protocol token. -/
def statusLine (code : Nat) : String :=
  let t := StatusText code
  toString code ++ " " ++ (if t = "" then "status code " ++ toString code else t)

/-- What the edge decoder makes of a body written by the downstream handler: the
JSON document decodes into the same three numbers, a plain text line or an empty
body does not decode. -/
def bodyOnWire {F : Type} :
    Payload (ServiceB.Response F) → Except Go.DecodeError (Option (ServiceA.ResponseWeather F))
  | .json v => .ok (some { Celsius := v.Celsius, Fahrenheit := v.Fahrenheit, Kelvin := v.Kelvin })
  | .text msg =>
    .error (.invalidCharacter (String.mk (Char.ofNat 39 :: msg.data.take 1 ++ [Char.ofNat 39]))
      "looking for beginning of value")
  | .empty => .error .eof

/-- The answer the edge receives when the downstream handler produced `out`: its
status line and body, or a broken connection when the handler panicked. -/
def serve {F : Type} :
    Option (Reply (ServiceB.Response F)) → Go.Wire (Option (ServiceA.ResponseWeather F))
  | none => .unreachable "EOF"
  | some rep => .reply (statusLine rep.status) (bodyOnWire rep.body)

/-- The downstream service as the network of the edge service: the GET for `cep`
reaches the downstream handler as a request for the path `/` with that query
value and the header fields `hdr`. -/
def downstream {F : Type} [Add F] [OfNat F 273] (net : ServiceB.Net F) (cep : String)
    (hdr : List (String × String)) : String → Go.Wire (Option (ServiceA.ResponseWeather F)) :=
  fun _ => serve (ServiceB.Handler net { Path := "/", cep := cep, Header := hdr }).1

/-! ## Sample inputs -/

/-- An address payload for the locality São Paulo with the given error flag. -/
def sampleAddress (erro : String) : ServiceB.Cep :=
  { Cep := "01001-000", Logradouro := "Praça da Sé", Complemento := "lado ímpar",
    Bairro := "Sé", Localidade := "São Paulo", Uf := "SP", Unidade := "",
    Ibge := "3550308", Gia := "1004", Erro := erro }

/-- A network in which the address provider answers `200 OK` with `sampleAddress erro`
and the weather provider behaves as `weather`. -/
def sampleNet {F : Type} (erro : String) (weather : Go.Wire (ServiceB.Weather F)) :
    ServiceB.Net F :=
  { viacep := fun _ => .reply "200 OK" (.ok (sampleAddress erro)),
    weatherapi := fun _ => weather }

/-- A network in which the downstream service cannot be reached. -/
def deadNet : String → Go.Wire (Option (ServiceA.ResponseWeather ℚ)) :=
  fun _ => .unreachable "dial tcp 10.0.0.2:8083: connect: connection refused"

/-! ## Facts about the library model -/

theorem matchDigits_some (n : Nat) (cs rest : List Char) :
    ServiceA.matchDigits n cs = some rest ↔
      ∃ ds, cs = ds ++ rest ∧ ds.length = n ∧ ∀ c ∈ ds, 48 ≤ c.toNat ∧ c.toNat ≤ 57 := by
  induction n generalizing cs with
  | zero =>
    constructor
    · intro h
      simp only [ServiceA.matchDigits, Option.some.injEq] at h
      exact ⟨[], by simp [h], rfl, by simp⟩
    · rintro ⟨ds, h1, h2, -⟩
      have : ds = [] := List.length_eq_zero.mp h2
      subst this
      simp [ServiceA.matchDigits, h1]
  | succ n ih =>
    cases cs with
    | nil =>
      constructor
      · intro h; simp [ServiceA.matchDigits] at h
      · rintro ⟨ds, h1, h2, -⟩
        cases ds with
        | nil => simp at h2
        | cons d ds => simp at h1
    | cons c cs =>
      constructor
      · intro h
        simp only [ServiceA.matchDigits] at h
        split at h
        · rename_i hd
          obtain ⟨ds, h1, h2, h3⟩ := (ih cs).mp h
          refine ⟨c :: ds, by simp [h1], by simp [h2], ?_⟩
          intro x hx
          rcases List.mem_cons.mp hx with rfl | hx
          · unfold Go.digitVal at hd
            split at hd
            · assumption
            · simp at hd
          · exact h3 x hx
        · simp at h
      · rintro ⟨ds, h1, h2, h3⟩
        cases ds with
        | nil => simp at h2
        | cons d ds =>
          simp only [List.cons_append, List.cons.injEq] at h1
          obtain ⟨rfl, h1⟩ := h1
          have hd : (Go.digitVal c).isSome = true := by
            have := h3 c (List.mem_cons_self _ _)
            simp [Go.digitVal, this]
          simp only [ServiceA.matchDigits, hd, if_true]
          exact (ih cs).mpr ⟨ds, h1, by simpa using h2, fun x hx => h3 x (List.mem_cons_of_mem _ hx)⟩

theorem isValidCEP_iff (s : String) :
    ServiceA.isValidCEP s = true ↔
      s.length = 8 ∧ ∀ c ∈ s.data, 48 ≤ c.toNat ∧ c.toNat ≤ 57 := by
  unfold ServiceA.isValidCEP
  constructor
  · intro h
    split at h
    · rename_i hm
      obtain ⟨ds, h1, h2, h3⟩ := (matchDigits_some 8 s.data []).mp hm
      simp only [List.append_nil] at h1
      rw [String.length, h1]
      exact ⟨h2, h3⟩
    · simp at h
  · rintro ⟨h1, h2⟩
    have : ServiceA.matchDigits 8 s.data = some [] :=
      (matchDigits_some 8 s.data []).mpr ⟨s.data, by simp, h1, h2⟩
    simp [this]

theorem len_of_ascii (cs : List Char) (h : ∀ c ∈ cs, c.toNat < 128) :
    Go.len (String.mk cs) = cs.length := by
  induction cs with
  | nil => rfl
  | cons c cs ih =>
    have hc := h c (List.mem_cons_self _ _)
    have := ih (fun x hx => h x (List.mem_cons_of_mem _ hx))
    simp only [Go.len, List.map_cons, List.sum_cons, List.length_cons] at this ⊢
    rw [this]
    simp [Go.utf8Encode, hc]
    omega

theorem len_of_valid (s : String) (h : ServiceA.isValidCEP s = true) : Go.len s = 8 := by
  obtain ⟨h1, h2⟩ := (isValidCEP_iff s).mp h
  have := len_of_ascii s.data (fun c hc => by have := h2 c hc; omega)
  rw [show String.mk s.data = s from rfl] at this
  rw [this]; exact h1

theorem ne_empty_of_valid (s : String) (h : ServiceA.isValidCEP s = true) : s ≠ "" := by
  rintro rfl
  simp [ServiceA.isValidCEP, ServiceA.matchDigits] at h

theorem urlError_ne (url inner : String) : Go.urlError url inner ≠ "404 Not Found" := by
  intro h
  have := congrArg String.data h
  simp [Go.urlError, String.data_append] at this

theorem decodeError_ne (e : Go.DecodeError) : e.Error ≠ "404 Not Found" := by
  intro h
  have := congrArg String.data h
  cases e <;> simp [Go.DecodeError.Error, String.data_append] at this

theorem Atoi3_shape (tok : List Char) (code : Nat) (h : Go.Atoi3 tok = some code) :
    ∃ a b c, tok = [a, b, c] ∧ a ≠ '%' ∧ b ≠ '%' ∧ c ≠ '%' := by
  match tok, h with
  | [a, b, c], h =>
    refine ⟨a, b, c, rfl, ?_, ?_, ?_⟩
    · rintro rfl
      simp [Go.Atoi3, Go.digitVal] at h
      split at h <;> simp_all
    · rintro rfl
      simp [Go.Atoi3, Go.digitVal] at h
    · rintro rfl
      simp [Go.Atoi3, Go.digitVal] at h

theorem Errorf_not_found (verbs : List Char → List Char) (st : String) (code : Nat)
    (hp : Go.parseStatusCode st = some code)
    (he : Go.Errorf verbs st = "404 Not Found") : code = 404 := by
  unfold Go.parseStatusCode at hp
  simp only at hp
  split at hp
  · simp at hp
  · obtain ⟨a, b, c, htok, ha, hb, hc⟩ := Atoi3_shape _ _ hp
    have hsplit := List.takeWhile_append_dropWhile (fun c => c != ' ') st.data
    rw [htok] at hsplit hp
    have hdata := congrArg String.data he
    unfold Go.Errorf at hdata
    rw [← hsplit] at hdata
    simp [List.takeWhile_cons, ha, hb, hc] at hdata
    obtain ⟨rfl, rfl, rfl, -⟩ := hdata
    have : Go.Atoi3 ['4', '0', '4'] = some 404 := by decide
    rw [this] at hp
    exact (Option.some.inj hp).symm

theorem Get_failed {α : Type} (url : String) (w : Go.Wire α) (e : String)
    (h : Go.Get url w = .failed e) : ∃ inner, e = Go.urlError url inner := by
  cases w with
  | unreachable inner =>
    simp only [Go.Get, Go.GetResult.failed.injEq] at h
    exact ⟨inner, h.symm⟩
  | reply status body =>
    simp only [Go.Get] at h
    split at h
    · simp only [Go.GetResult.failed.injEq] at h
      exact ⟨_, h.symm⟩
    · simp at h

theorem Get_replied {α : Type} (url : String) (w : Go.Wire α) (res : Go.Response α)
    (h : Go.Get url w = .replied res) :
    Go.parseStatusCode res.Status = some res.StatusCode := by
  cases w with
  | unreachable inner => simp [Go.Get] at h
  | reply status body =>
    simp only [Go.Get] at h
    split at h
    · simp at h
    · rename_i code hcode
      simp only [Go.GetResult.replied.injEq] at h
      subst h
      exact hcode

/-! ## The edge handler -/

theorem edge_status_of_valid {F : Type} (verbs : List Char → List Char)
    (net : String → Go.Wire (Option (ServiceA.ResponseWeather F))) (cep : String)
    (hv : ServiceA.isValidCEP cep = true) :
    (ServiceA.Handler verbs net { Body := .ok cep }).1.status =
      match (ServiceA.requestServiceB verbs net (some "start") cep).1 with
      | .error err => if err = "404 Not Found" then 404 else 400
      | .ok _ => 200 := by
  simp only [ServiceA.Handler, hv, Bool.not_true, Bool.false_eq_true, if_false]
  split
  · split <;> rfl
  · rfl

theorem edge_status_invalid {F : Type} (verbs : List Char → List Char)
    (net : String → Go.Wire (Option (ServiceA.ResponseWeather F))) (cep : String)
    (hv : ServiceA.isValidCEP cep = false) :
    ServiceA.Handler verbs net { Body := .ok cep } =
      ({ status := 422, body := .text "invalid zipcode" }, []) := by
  simp [ServiceA.Handler, hv]

theorem edge_log_of_422 {F : Type} (verbs : List Char → List Char)
    (net : String → Go.Wire (Option (ServiceA.ResponseWeather F))) (r : ServiceA.Request)
    (h : (ServiceA.Handler verbs net r).1.status = 422) :
    (ServiceA.Handler verbs net r).2 = [] := by
  obtain ⟨body⟩ := r
  cases body with
  | error e => simp [ServiceA.Handler] at h
  | ok cep =>
    cases hv : ServiceA.isValidCEP cep with
    | false => rw [edge_status_invalid verbs net cep hv]
    | true =>
      rw [edge_status_of_valid verbs net cep hv] at h
      split at h
      · split at h <;> simp at h
      · simp at h

/-- C3: for a body that decodes to the cep string `s`, the edge handler answers 422
exactly when `s` is not eight ASCII decimal digits, which is exactly when
`isValidCEP s` is false (as it is for eight digits followed by a newline, for
non-ASCII digits and for the empty string); and a request answered with 422 has
made no outbound call. -/
theorem C3_edge_422_iff_not_eight_digits {F : Type} (verbs : List Char → List Char)
    (net : String → Go.Wire (Option (ServiceA.ResponseWeather F))) (s : String) :
    ((ServiceA.Handler verbs net { Body := .ok s }).1.status = 422 ↔
        ¬ (s.length = 8 ∧ ∀ c ∈ s.data, 48 ≤ c.toNat ∧ c.toNat ≤ 57))
      ∧ ((ServiceA.Handler verbs net { Body := .ok s }).1.status = 422 ↔
        ServiceA.isValidCEP s = false)
      ∧ ServiceA.isValidCEP "12345678\n" = false
      ∧ ServiceA.isValidCEP "１２３４５６７８" = false
      ∧ ServiceA.isValidCEP "" = false
      ∧ ∀ r : ServiceA.Request, (ServiceA.Handler verbs net r).1.status = 422 →
          outboundCalls (ServiceA.Handler verbs net r).2 = 0 := by
  have key : (ServiceA.Handler verbs net { Body := .ok s }).1.status = 422 ↔
      ServiceA.isValidCEP s = false := by
    cases hv : ServiceA.isValidCEP s with
    | false => simp [edge_status_invalid verbs net s hv]
    | true =>
      rw [edge_status_of_valid verbs net s hv]
      split
      · split <;> simp
      · simp
  refine ⟨?_, key, by decide, by decide, by decide, ?_⟩
  · rw [key, ← isValidCEP_iff]
    simp
  · intro r h
    rw [edge_log_of_422 verbs net r h]
    rfl

theorem requestServiceB_error_text {F : Type} (verbs : List Char → List Char)
    (net : String → Go.Wire (Option (ServiceA.ResponseWeather F)))
    (ctx : Option String) (cep err : String)
    (hfail : (ServiceA.requestServiceB verbs net ctx cep).1 = .error err)
    (hnf : ∀ res, Go.Get ("http://goapp-b:8083?cep=" ++ cep)
        (net ("http://goapp-b:8083?cep=" ++ cep)) = .replied res → res.StatusCode ≠ 404) :
    err ≠ "404 Not Found" := by
  unfold ServiceA.requestServiceB at hfail
  simp only at hfail
  split at hfail
  · rename_i e hget
    simp only [Except.error.injEq] at hfail
    subst hfail
    obtain ⟨inner, rfl⟩ := Get_failed _ _ _ hget
    exact urlError_ne _ _
  · rename_i res hget
    split at hfail
    · simp only [Except.error.injEq] at hfail
      subst hfail
      intro he
      exact hnf res hget (Errorf_not_found verbs _ _ (Get_replied _ _ _ hget) he)
    · split at hfail
      · simp only [Except.error.injEq] at hfail
        subst hfail
        exact decodeError_ne _
      · simp at hfail

/-- C2: for a valid postal code, when `requestServiceB` fails and the failure is not
a downstream response with status 404, the edge handler answers 400 (hence not
404).  The three kinds of failure are spelled out: no response at all, whatever
the text of the transport error; a response whose status is neither 200 nor 404;
a response with status 200 whose body does not decode. -/
theorem C2_edge_other_failures_give_400 {F : Type} (verbs : List Char → List Char)
    (net : String → Go.Wire (Option (ServiceA.ResponseWeather F))) (cep : String)
    (hv : ServiceA.isValidCEP cep = true) :
    (∀ err, (ServiceA.requestServiceB verbs net (some "start") cep).1 = .error err →
        (∀ res, Go.Get ("http://goapp-b:8083?cep=" ++ cep)
            (net ("http://goapp-b:8083?cep=" ++ cep)) = .replied res → res.StatusCode ≠ 404) →
        (ServiceA.Handler verbs net { Body := .ok cep }).1.status = 400
          ∧ (ServiceA.Handler verbs net { Body := .ok cep }).1.status ≠ 404)
      ∧ (∀ inner, net ("http://goapp-b:8083?cep=" ++ cep) = .unreachable inner →
        (ServiceA.Handler verbs net { Body := .ok cep }).1.status = 400)
      ∧ (∀ res, Go.Get ("http://goapp-b:8083?cep=" ++ cep)
            (net ("http://goapp-b:8083?cep=" ++ cep)) = .replied res →
          res.StatusCode ≠ 200 → res.StatusCode ≠ 404 →
        (ServiceA.Handler verbs net { Body := .ok cep }).1.status = 400)
      ∧ (∀ res e, Go.Get ("http://goapp-b:8083?cep=" ++ cep)
            (net ("http://goapp-b:8083?cep=" ++ cep)) = .replied res →
          res.StatusCode = 200 → res.Body = .error e →
        (ServiceA.Handler verbs net { Body := .ok cep }).1.status = 400) := by
  have main : ∀ err, (ServiceA.requestServiceB verbs net (some "start") cep).1 = .error err →
      (∀ res, Go.Get ("http://goapp-b:8083?cep=" ++ cep)
          (net ("http://goapp-b:8083?cep=" ++ cep)) = .replied res → res.StatusCode ≠ 404) →
      (ServiceA.Handler verbs net { Body := .ok cep }).1.status = 400 := by
    intro err hfail hnf
    have hne := requestServiceB_error_text verbs net _ cep err hfail hnf
    rw [edge_status_of_valid verbs net cep hv, hfail]
    simp [hne]
  refine ⟨fun err hfail hnf => ⟨main err hfail hnf, ?_⟩, ?_, ?_, ?_⟩
  · rw [main err hfail hnf]; decide
  · intro inner hw
    refine main (Go.urlError ("http://goapp-b:8083?cep=" ++ cep) inner) ?_ ?_
    · simp [ServiceA.requestServiceB, hw, Go.Get]
    · intro res hget
      simp [hw, Go.Get] at hget
  · intro res hget h200 h404
    refine main (Go.Errorf verbs res.Status) ?_ ?_
    · simp [ServiceA.requestServiceB, hget, h200]
    · intro res2 hget2
      rw [hget] at hget2
      simp only [Go.GetResult.replied.injEq] at hget2
      subst hget2
      exact h404
  · intro res e hget h200 hbody
    refine main e.Error ?_ ?_
    · simp [ServiceA.requestServiceB, hget, h200, hbody]
    · intro res2 hget2
      rw [hget] at hget2
      simp only [Go.GetResult.replied.injEq] at hget2
      subst hget2
      rw [h200]; decide

/-! ## The downstream handler and the hop -/

theorem Get_serve_404 {F : Type} (url : String) (body : Payload (ServiceB.Response F)) :
    Go.Get url (serve (some { status := 404, body := body })) =
      .replied { Status := "404 Not Found", StatusCode := 404, Body := bodyOnWire body } := by
  have h1 : statusLine 404 = "404 Not Found" := by decide
  have h2 : String.mk ("404 Not Found".data.dropWhile (fun c => c == ' ')) = "404 Not Found" := by
    decide
  have h3 : Go.parseStatusCode "404 Not Found" = some 404 := by decide
  simp only [serve, Go.Get, h1, h2, h3]

theorem Get_serve_200 {F : Type} (url : String) (body : Payload (ServiceB.Response F)) :
    Go.Get url (serve (some { status := 200, body := body })) =
      .replied { Status := "200 OK", StatusCode := 200, Body := bodyOnWire body } := by
  have h1 : statusLine 200 = "200 OK" := by decide
  have h2 : String.mk ("200 OK".data.dropWhile (fun c => c == ' ')) = "200 OK" := by
    decide
  have h3 : Go.parseStatusCode "200 OK" = some 200 := by decide
  simp only [serve, Go.Get, h1, h2, h3]

theorem Errorf_404 (verbs : List Char → List Char) :
    Go.Errorf verbs "404 Not Found" = "404 Not Found" := by
  rfl

theorem downstream_not_found {F : Type} [Add F] [OfNat F 273] (net : ServiceB.Net F)
    (cep : String) (hdr : List (String × String)) (address : ServiceB.Cep)
    (hne : cep ≠ "") (hlen : Go.len cep = 8)
    (hloc : (ServiceB.GetLocation net (some "start") cep).1 = .ok address)
    (herro : address.Erro = "true") :
    ServiceB.Handler net { Path := "/", cep := cep, Header := hdr } =
      (some { status := 404, body := .text "cannot find zipcode" },
        [Event.spanStart "start" none] ++ (ServiceB.GetLocation net (some "start") cep).2
          ++ [Event.spanEnd "start"]) := by
  simp [ServiceB.Handler, hne, hlen, hloc, herro]

/-- C1: for a valid eight digit postal code whose address payload carries the error
flag (`Erro = "true"`), the downstream handler answers 404, and the edge handler,
receiving that response through `requestServiceB`, answers 404 and not 400. -/
theorem C1_not_found_end_to_end {F : Type} [Add F] [OfNat F 273]
    (verbs : List Char → List Char) (net : ServiceB.Net F) (cep : String)
    (hdr : List (String × String)) (address : ServiceB.Cep)
    (hv : ServiceA.isValidCEP cep = true)
    (hloc : (ServiceB.GetLocation net (some "start") cep).1 = .ok address)
    (herro : address.Erro = "true") :
    (ServiceB.Handler net { Path := "/", cep := cep, Header := hdr }).1.map (fun rep => rep.status)
        = some 404
      ∧ (ServiceA.Handler verbs (downstream net cep hdr) { Body := .ok cep }).1.status = 404
      ∧ (ServiceA.Handler verbs (downstream net cep hdr) { Body := .ok cep }).1.status ≠ 400 := by
  have hB := downstream_not_found net cep hdr address (ne_empty_of_valid cep hv)
    (len_of_valid cep hv) hloc herro
  have hA : (ServiceA.Handler verbs (downstream net cep hdr) { Body := .ok cep }).1.status
      = 404 := by
    rw [edge_status_of_valid verbs _ cep hv]
    simp only [ServiceA.requestServiceB, downstream, hB, Get_serve_404]
    simp [Errorf_404]
  refine ⟨by rw [hB]; rfl, hA, ?_⟩
  rw [hA]; decide

theorem GetLocation_log {F : Type} (net : ServiceB.Net F) (ctx : Option String) (cep : String) :
    (ServiceB.GetLocation net ctx cep).2 =
      [Event.spanStart "getting location" ctx,
       Event.httpGet .viacep ("http://viacep.com.br/ws/" ++ cep ++ "/json/") [],
       Event.spanEnd "getting location"] := by
  unfold ServiceB.GetLocation
  simp only
  split
  · rfl
  · split <;> rfl

theorem GetWeather_log {F : Type} (net : ServiceB.Net F) (ctx : Option String) (city : String) :
    (ServiceB.GetWeather net ctx city).2 =
      [Event.spanStart "getting weather" ctx,
       Event.httpGet .weatherapi ("http://api.weatherapi.com/v1/current.json?q="
          ++ Go.QueryEscape city ++ "&key=f32a666acf614d978db184424251103") [],
       Event.spanEnd "getting weather"] := by
  unfold ServiceB.GetWeather
  simp only
  split
  · rfl
  · split
    · rfl
    · split <;> rfl

theorem downstream_status_of_checked {F : Type} [Add F] [OfNat F 273] (net : ServiceB.Net F)
    (cep : String) (hdr : List (String × String)) (hne : cep ≠ "") (hlen : Go.len cep = 8) :
    (ServiceB.Handler net { Path := "/", cep := cep, Header := hdr }).1.map
        (fun rep => rep.status) ≠ some 422
      ∧ callsTo .viacep (ServiceB.Handler net { Path := "/", cep := cep, Header := hdr }).2 = 1 := by
  simp only [ServiceB.Handler, hne, hlen, GetLocation_log, GetWeather_log]
  simp only [ne_eq, not_true_eq_false, or_self, if_false]
  split
  · simp [callsTo, isCallTo]
  · split
    · simp [callsTo, isCallTo]
    · split <;> simp [callsTo, isCallTo]

/-- C10: a string accepted by the edge check `isValidCEP` is non-empty and has byte
length 8, so the downstream test `cep == "" || len(cep) != 8` is false for it, and
the downstream handler asked for it never answers 422. -/
theorem C10_edge_check_implies_downstream_check {F : Type} [Add F] [OfNat F 273]
    (s : String) (hv : ServiceA.isValidCEP s = true) :
    s ≠ "" ∧ Go.len s = 8 ∧ ¬ (s = "" ∨ Go.len s ≠ 8)
      ∧ ∀ (net : ServiceB.Net F) (hdr : List (String × String)),
          (ServiceB.Handler net { Path := "/", cep := s, Header := hdr }).1.map
            (fun rep => rep.status) ≠ some 422 := by
  have hne := ne_empty_of_valid s hv
  have hlen := len_of_valid s hv
  refine ⟨hne, hlen, ?_, fun net hdr => (downstream_status_of_checked net s hdr hne hlen).1⟩
  rintro (h | h)
  · exact hne h
  · exact h hlen

/-- C4 (evaluation of the code): the eight letter value `abcdefgh` is not eight
decimal digits, yet the downstream handler does not answer 422 for it and calls
the address provider once. -/
theorem C4_downstream_accepts_eight_letters {F : Type} [Add F] [OfNat F 273]
    (net : ServiceB.Net F) (hdr : List (String × String)) :
    ServiceA.isValidCEP "abcdefgh" = false
      ∧ (ServiceB.Handler net { Path := "/", cep := "abcdefgh", Header := hdr }).1.map
          (fun rep => rep.status) ≠ some 422
      ∧ callsTo .viacep
          (ServiceB.Handler net { Path := "/", cep := "abcdefgh", Header := hdr }).2 = 1
      ∧ Event.httpGet .viacep "http://viacep.com.br/ws/abcdefgh/json/" []
          ∈ (ServiceB.Handler net { Path := "/", cep := "abcdefgh", Header := hdr }).2 := by
  have h := downstream_status_of_checked net "abcdefgh" hdr (by decide) (by decide)
  refine ⟨by decide, h.1, h.2, ?_⟩
  have hu : "http://viacep.com.br/ws/" ++ "abcdefgh" ++ "/json/"
      = "http://viacep.com.br/ws/abcdefgh/json/" := by decide
  simp only [ServiceB.Handler, GetLocation_log, GetWeather_log, hu]
  simp only [ne_eq, not_true_eq_false, if_false]
  have hc : ¬ ("abcdefgh" = "" ∨ ¬ Go.len "abcdefgh" = 8) := by decide
  simp only [hc, if_false]
  split
  · simp
  · split
    · simp
    · split <;> simp

theorem Get_reply_200 {α : Type} (url : String) (body : Except Go.DecodeError α) :
    Go.Get url (.reply "200 OK" body) =
      .replied { Status := "200 OK", StatusCode := 200, Body := body } := by
  have h2 : String.mk ("200 OK".data.dropWhile (fun c => c == ' ')) = "200 OK" := by
    decide
  have h3 : Go.parseStatusCode "200 OK" = some 200 := by decide
  simp only [Go.Get, h2, h3]

theorem Get_reply_500 {α : Type} (url : String) (body : Except Go.DecodeError α) :
    Go.Get url (.reply "500 Internal Server Error" body) =
      .replied { Status := "500 Internal Server Error", StatusCode := 500, Body := body } := by
  have h2 : String.mk ("500 Internal Server Error".data.dropWhile (fun c => c == ' '))
      = "500 Internal Server Error" := by
    decide
  have h3 : Go.parseStatusCode "500 Internal Server Error" = some 500 := by decide
  simp only [Go.Get, h2, h3]

theorem GetLocation_sample {F : Type} (erro : String) (weather : Go.Wire (ServiceB.Weather F))
    (ctx : Option String) (cep : String) :
    (ServiceB.GetLocation (sampleNet erro weather) ctx cep).1 = .ok (sampleAddress erro) := by
  simp only [ServiceB.GetLocation, sampleNet, Get_reply_200]

/-- C6 (evaluation of the code): when the weather call meets a transport error
`GetWeather` panics instead of returning an error, and the downstream handler
writes no response; with a response of status 500 `GetWeather` returns the error
`error to get weather` whatever the body, and the handler answers 400. -/
theorem C6_weather_transport_error_panics {F : Type} [Add F] [OfNat F 273]
    (viacep : String → Go.Wire ServiceB.Cep) (ctx : Option String) (city inner : String)
    (hdr : List (String × String)) (body : Except Go.DecodeError (ServiceB.Weather F)) :
    (ServiceB.GetWeather
        ({ viacep := viacep, weatherapi := fun _ => .unreachable inner } : ServiceB.Net F)
        ctx city).1 = .panicked
      ∧ (ServiceB.Handler (sampleNet "" (.unreachable inner) : ServiceB.Net F)
          { Path := "/", cep := "01001000", Header := hdr }).1.isNone = true
      ∧ (ServiceB.GetWeather
          (sampleNet "" (.reply "500 Internal Server Error" body) : ServiceB.Net F)
          ctx city).1 = .err "error to get weather"
      ∧ (ServiceB.Handler (sampleNet "" (.reply "500 Internal Server Error" body) : ServiceB.Net F)
          { Path := "/", cep := "01001000", Header := hdr }).1.map (fun rep => rep.status)
          = some 400 := by
  have hc : ¬ ("01001000" = "" ∨ Go.len "01001000" ≠ 8) := by decide
  have hw1 : (ServiceB.GetWeather (sampleNet "" (.unreachable inner) : ServiceB.Net F)
      (some "start") (sampleAddress "").Localidade).1 = .panicked := by
    simp [ServiceB.GetWeather, sampleNet, Go.Get]
  have hw2 : (ServiceB.GetWeather
      (sampleNet "" (.reply "500 Internal Server Error" body) : ServiceB.Net F)
      ctx city).1 = .err "error to get weather" := by
    simp [ServiceB.GetWeather, sampleNet, Get_reply_500]
  have hw3 : (ServiceB.GetWeather
      (sampleNet "" (.reply "500 Internal Server Error" body) : ServiceB.Net F)
      (some "start") (sampleAddress "").Localidade).1 = .err "error to get weather" := by
    simp [ServiceB.GetWeather, sampleNet, Get_reply_500]
  have he : ¬ ((sampleAddress "").Erro = "true") := by decide
  refine ⟨?_, ?_, hw2, ?_⟩
  · simp [ServiceB.GetWeather, Go.Get]
  · simp only [ServiceB.Handler, ne_eq, not_true_eq_false, if_false, hc, GetLocation_sample,
      he, hw1]
    rfl
  · simp only [ServiceB.Handler, ne_eq, not_true_eq_false, if_false, hc, GetLocation_sample,
      he, hw3]
    rfl

/-- The log of the downstream handler, by the branch it takes. -/
theorem downstream_log {F : Type} [Add F] [OfNat F 273] (net : ServiceB.Net F)
    (r : ServiceB.Request) :
    (ServiceB.Handler net r).2 =
      if r.Path ≠ "/" then []
      else if r.cep = "" ∨ Go.len r.cep ≠ 8 then
        [Event.spanStart "start" none, Event.spanEnd "start"]
      else
        match (ServiceB.GetLocation net (some "start") r.cep).1 with
        | .error _ =>
          [Event.spanStart "start" none] ++ (ServiceB.GetLocation net (some "start") r.cep).2
            ++ [Event.spanEnd "start"]
        | .ok address =>
          if address.Erro = "true" then
            [Event.spanStart "start" none] ++ (ServiceB.GetLocation net (some "start") r.cep).2
              ++ [Event.spanEnd "start"]
          else
            [Event.spanStart "start" none] ++ (ServiceB.GetLocation net (some "start") r.cep).2
              ++ (ServiceB.GetWeather net (some "start") address.Localidade).2
              ++ [Event.spanEnd "start"] := by
  unfold ServiceB.Handler
  split
  · rfl
  · simp only
    split
    · rfl
    · split
      · rfl
      · split
        · rfl
        · split <;> rfl

/-- C7: when the address provider is asked and reports no match, exactly one call
goes to the address provider and none to the weather provider; in every request
the weather provider is called at most once, and a call to it comes after the call
to the address provider and the end of `GetLocation`, which returned a parsed
address whose error flag is not set. -/
theorem C7_downstream_call_ordering {F : Type} [Add F] [OfNat F 273] (net : ServiceB.Net F)
    (r : ServiceB.Request) :
    (∀ address, (∃ url hdr, Event.httpGet .viacep url hdr ∈ (ServiceB.Handler net r).2) →
        (ServiceB.GetLocation net (some "start") r.cep).1 = .ok address →
        address.Erro = "true" →
        callsTo .viacep (ServiceB.Handler net r).2 = 1
          ∧ callsTo .weatherapi (ServiceB.Handler net r).2 = 0)
      ∧ callsTo .weatherapi (ServiceB.Handler net r).2 ≤ 1
      ∧ (∀ url hdr pre post,
          (ServiceB.Handler net r).2 = pre ++ Event.httpGet .weatherapi url hdr :: post →
          (∃ u h, Event.httpGet .viacep u h ∈ pre)
            ∧ Event.spanEnd "getting location" ∈ pre
            ∧ (∀ u h, Event.httpGet .weatherapi u h ∉ pre)
            ∧ ∃ address, (ServiceB.GetLocation net (some "start") r.cep).1 = .ok address
                ∧ address.Erro ≠ "true") := by
  rw [downstream_log]
  simp only [GetLocation_log, GetWeather_log]
  refine ⟨?_, ?_, ?_⟩
  · intro address hcall hloc herro
    obtain ⟨url, hdr, hmem⟩ := hcall
    split at hmem
    · simp at hmem
    · split at hmem
      · simp at hmem
      · rename_i hpath hfmt
        simp only [hpath, hfmt, if_false, hloc, herro, if_true]
        simp [callsTo, isCallTo]
  · split
    · simp [callsTo]
    · split
      · simp [callsTo, isCallTo]
      · split
        · simp [callsTo, isCallTo]
        · split <;> simp [callsTo, isCallTo]
  · intro url hdr pre post hlog
    split at hlog
    · simp at hlog
    · split at hlog
      · rcases pre with _ | ⟨p0, _ | ⟨p1, pre⟩⟩ <;> simp at hlog
      · split at hlog
        · rcases pre with _ | ⟨p0, _ | ⟨p1, _ | ⟨p2, _ | ⟨p3, _ | ⟨p4, pre⟩⟩⟩⟩⟩ <;> simp at hlog
        · rename_i address hloc
          split at hlog
          · rcases pre with _ | ⟨p0, _ | ⟨p1, _ | ⟨p2, _ | ⟨p3, _ | ⟨p4, pre⟩⟩⟩⟩⟩ <;>
              simp at hlog
          · rename_i herro
            rcases pre with _ | ⟨p0, _ | ⟨p1, _ | ⟨p2, _ | ⟨p3, _ | ⟨p4, _ | ⟨p5, _ | ⟨p6,
              _ | ⟨p7, pre⟩⟩⟩⟩⟩⟩⟩⟩ <;> simp at hlog
            obtain ⟨rfl, rfl, rfl, rfl, rfl, -, -⟩ := hlog
            refine ⟨⟨"http://viacep.com.br/ws/" ++ r.cep ++ "/json/", [], by simp⟩,
              by simp, by simp, address, hloc, herro⟩

/-- C5: when the address resolves (error flag not set) and the weather provider
answers 200 with current temperatures `c` and `f`, the downstream handler answers
200 with `temp_C = c`, `temp_F = f` and `temp_K = c + 273`, and the edge handler
answers 200 with the same three values. -/
theorem C5_response_composition {F : Type} [Add F] [OfNat F 273]
    (verbs : List Char → List Char) (net : ServiceB.Net F) (cep : String)
    (hdr : List (String × String)) (address : ServiceB.Cep)
    (res : Go.Response (ServiceB.Weather F)) (c f : F)
    (hv : ServiceA.isValidCEP cep = true)
    (hloc : (ServiceB.GetLocation net (some "start") cep).1 = .ok address)
    (herro : address.Erro ≠ "true")
    (hget : Go.Get ("http://api.weatherapi.com/v1/current.json?q="
          ++ Go.QueryEscape address.Localidade ++ "&key=f32a666acf614d978db184424251103")
        (net.weatherapi ("http://api.weatherapi.com/v1/current.json?q="
          ++ Go.QueryEscape address.Localidade ++ "&key=f32a666acf614d978db184424251103"))
        = .replied res)
    (h200 : res.StatusCode = 200)
    (hbody : res.Body = .ok { Current := { TempC := c, TempF := f } }) :
    (ServiceB.Handler net { Path := "/", cep := cep, Header := hdr }).1 =
        some { status := 200,
               body := .json { Celsius := c, Fahrenheit := f, Kelvin := c + 273 } }
      ∧ (ServiceA.Handler verbs (downstream net cep hdr) { Body := .ok cep }).1 =
        { status := 200,
          body := .json (some { Celsius := c, Fahrenheit := f, Kelvin := c + 273 }) } := by
  have hne := ne_empty_of_valid cep hv
  have hlen := len_of_valid cep hv
  have hwea : (ServiceB.GetWeather net (some "start") address.Localidade).1
      = .ok { TempC := c, TempF := f } := by
    simp [ServiceB.GetWeather, hget, h200, hbody]
  have hB : (ServiceB.Handler net { Path := "/", cep := cep, Header := hdr }).1 =
      some { status := 200,
             body := .json { Celsius := c, Fahrenheit := f, Kelvin := c + 273 } } := by
    simp [ServiceB.Handler, hne, hlen, hloc, herro, hwea]
  refine ⟨hB, ?_⟩
  simp only [ServiceA.Handler, hv, Bool.not_true, Bool.false_eq_true, if_false,
    ServiceA.requestServiceB, downstream, hB, Get_serve_200]
  simp [bodyOnWire]

/-- C8 (evaluation of the code): for the body with cep `01001000` the only outbound
request of the edge handler is a GET that carries no header field, so no trace
context leaves the process; and the downstream handler starts its span `start`
without a parent whatever header fields the request arrived with, a `traceparent`
field included. -/
theorem C8_no_trace_context_propagated {F : Type} [Add F] [OfNat F 273]
    (verbs : List Char → List Char)
    (netA : String → Go.Wire (Option (ServiceA.ResponseWeather F)))
    (netB : ServiceB.Net F) (traceparent : String) :
    (ServiceA.Handler verbs netA { Body := .ok "01001000" }).2 =
        [Event.spanStart "start" none,
         Event.spanStart "Send request to Service B" (some "start"),
         Event.spanEnd "Send request to Service B",
         Event.httpGet .goappB "http://goapp-b:8083?cep=01001000" [],
         Event.spanEnd "start"]
      ∧ (ServiceB.Handler netB
          { Path := "/", cep := "01001000",
            Header := [("Traceparent", traceparent)] }).2.head?
          = some (Event.spanStart "start" none)
      ∧ ∀ parent, Event.spanStart "start" (some parent) ∉
          (ServiceB.Handler netB
            { Path := "/", cep := "01001000",
              Header := [("Traceparent", traceparent)] }).2 := by
  have hv : ServiceA.isValidCEP "01001000" = true := by decide
  have hu : "http://goapp-b:8083?cep=" ++ "01001000" = "http://goapp-b:8083?cep=01001000" := by
    decide
  have hc : ¬ ("01001000" = "" ∨ Go.len "01001000" ≠ 8) := by decide
  refine ⟨?_, ?_, ?_⟩
  · simp only [ServiceA.Handler, hv, Bool.not_true, Bool.false_eq_true, if_false]
    have hlog : (ServiceA.requestServiceB verbs netA (some "start") "01001000").2 =
        [Event.spanStart "Send request to Service B" (some "start"),
         Event.spanEnd "Send request to Service B",
         Event.httpGet .goappB "http://goapp-b:8083?cep=01001000" []] := by
      unfold ServiceA.requestServiceB
      simp only [hu]
      split
      · rfl
      · split
        · rfl
        · split <;> rfl
    split
    · split <;> simp [hlog]
    · simp [hlog]
  · rw [downstream_log]
    simp only [ne_eq, not_true_eq_false, if_false, hc, GetLocation_log, GetWeather_log]
    split
    · rfl
    · split <;> rfl
  · intro parent
    rw [downstream_log]
    simp only [ne_eq, not_true_eq_false, if_false, hc, GetLocation_log, GetWeather_log]
    split
    · simp
    · split <;> simp

/-- C9 (amended): a request whose body does not decode or whose cep is invalid opens
no span; every other request opens exactly two spans, `start` in the handler and
`Send request to Service B` in `requestServiceB`, each of them is closed exactly
once, and the last effect of the handler is the end of `start`. -/
theorem C9_edge_spans_opened_and_closed {F : Type} (verbs : List Char → List Char)
    (net : String → Go.Wire (Option (ServiceA.ResponseWeather F))) (r : ServiceA.Request) :
    match r.Body with
    | .error _ =>
      spansOpened (ServiceA.Handler verbs net r).2 = []
        ∧ spansClosed (ServiceA.Handler verbs net r).2 = []
    | .ok cep =>
      if ServiceA.isValidCEP cep = true then
        spansOpened (ServiceA.Handler verbs net r).2 = ["start", "Send request to Service B"]
          ∧ spansClosed (ServiceA.Handler verbs net r).2
              = ["Send request to Service B", "start"]
          ∧ (ServiceA.Handler verbs net r).2.getLast? = some (Event.spanEnd "start")
      else
        spansOpened (ServiceA.Handler verbs net r).2 = []
          ∧ spansClosed (ServiceA.Handler verbs net r).2 = [] := by
  obtain ⟨body⟩ := r
  cases body with
  | error e => simp [ServiceA.Handler, spansOpened, spansClosed]
  | ok cep =>
    simp only
    cases hv : ServiceA.isValidCEP cep with
    | false => simp [ServiceA.Handler, hv, spansOpened, spansClosed]
    | true =>
      have hlog : (ServiceA.requestServiceB verbs net (some "start") cep).2 =
          [Event.spanStart "Send request to Service B" (some "start"),
           Event.spanEnd "Send request to Service B",
           Event.httpGet .goappB ("http://goapp-b:8083?cep=" ++ cep) []] := by
        unfold ServiceA.requestServiceB
        simp only
        split
        · rfl
        · split
          · rfl
          · split <;> rfl
      simp only [ServiceA.Handler, hv, Bool.not_true, Bool.false_eq_true, if_false, if_true]
      split
      · split <;> simp [hlog, spansOpened, spansClosed]
      · simp [hlog, spansOpened, spansClosed]

/-! ## The claims at concrete inputs -/

/-- The body with cep `99999999`, for which the address provider sets the error flag:
both services answer 404. -/
theorem C1_not_found_end_to_end_witness :
    ServiceA.isValidCEP "99999999" = true
      ∧ (ServiceB.GetLocation (sampleNet "true" (.unreachable "unused") : ServiceB.Net ℚ)
          (some "start") "99999999").1 = .ok (sampleAddress "true")
      ∧ (ServiceB.Handler (sampleNet "true" (.unreachable "unused") : ServiceB.Net ℚ)
          { Path := "/", cep := "99999999", Header := [] }).1.map (fun rep => rep.status)
          = some 404
      ∧ (ServiceA.Handler id
          (downstream (sampleNet "true" (.unreachable "unused") : ServiceB.Net ℚ) "99999999" [])
          { Body := .ok "99999999" }).1.status = 404 :=
  ⟨by decide, GetLocation_sample _ _ _ _,
    (C1_not_found_end_to_end id (sampleNet "true" (.unreachable "unused") : ServiceB.Net ℚ)
      "99999999" [] (sampleAddress "true") (by decide) (GetLocation_sample _ _ _ _) rfl).1,
    (C1_not_found_end_to_end id (sampleNet "true" (.unreachable "unused") : ServiceB.Net ℚ)
      "99999999" [] (sampleAddress "true") (by decide) (GetLocation_sample _ _ _ _) rfl).2.1⟩

/-- The body with cep `01001000` while the downstream service refuses connections:
the edge answers 400. -/
theorem C2_edge_other_failures_give_400_witness :
    ServiceA.isValidCEP "01001000" = true
      ∧ (ServiceA.Handler id deadNet { Body := .ok "01001000" }).1.status = 400 :=
  ⟨by decide,
    (C2_edge_other_failures_give_400 id deadNet "01001000" (by decide)).2.1
      "dial tcp 10.0.0.2:8083: connect: connection refused" rfl⟩

/-- The body with cep `123`: status 422 and no outbound call. -/
theorem C3_edge_422_iff_not_eight_digits_witness :
    (ServiceA.Handler id deadNet { Body := .ok "123" }).1.status = 422
      ∧ outboundCalls (ServiceA.Handler id deadNet { Body := .ok "123" }).2 = 0 :=
  have h : (ServiceA.Handler id deadNet { Body := .ok "123" }).1.status = 422 :=
    (C3_edge_422_iff_not_eight_digits id deadNet "123").2.1.mpr (by decide)
  ⟨h, (C3_edge_422_iff_not_eight_digits id deadNet "123").2.2.2.2.2 _ h⟩

/-- The scenario of the specification: cep `01001000`, locality São Paulo, the
provider reads 25 and 77; both services answer 200 with 25, 77 and 298, and 298
is not 25 + 273.15. -/
theorem C5_response_composition_witness :
    ServiceA.isValidCEP "01001000" = true
      ∧ (sampleAddress "").Erro ≠ "true"
      ∧ (ServiceB.Handler
          (sampleNet "" (.reply "200 OK" (.ok { Current := { TempC := 25, TempF := 77 } }))
            : ServiceB.Net ℚ)
          { Path := "/", cep := "01001000", Header := [] }).1 =
        some { status := 200, body := .json { Celsius := 25, Fahrenheit := 77, Kelvin := 298 } }
      ∧ (ServiceA.Handler id
          (downstream
            (sampleNet "" (.reply "200 OK" (.ok { Current := { TempC := 25, TempF := 77 } }))
              : ServiceB.Net ℚ) "01001000" [])
          { Body := .ok "01001000" }).1 =
        { status := 200,
          body := .json (some { Celsius := 25, Fahrenheit := 77, Kelvin := 298 }) }
      ∧ (298 : ℚ) ≠ 25 + 273.15 := by
  have h := C5_response_composition id
    (sampleNet "" (.reply "200 OK" (.ok { Current := { TempC := 25, TempF := 77 } }))
      : ServiceB.Net ℚ)
    "01001000" [] (sampleAddress "")
    { Status := "200 OK", StatusCode := 200,
      Body := .ok { Current := { TempC := 25, TempF := 77 } } } 25 77
    (by decide) (GetLocation_sample _ _ _ _) (by decide) (Get_reply_200 _ _) rfl rfl
  have e : (25 : ℚ) + 273 = 298 := by norm_num
  rw [e] at h
  exact ⟨by decide, by decide, h.1, h.2, by norm_num⟩

/-- The cep `99999999` with the error flag set: one call to the address provider,
none to the weather provider. -/
theorem C7_downstream_call_ordering_witness :
    callsTo .viacep
        (ServiceB.Handler (sampleNet "true" (.unreachable "unused") : ServiceB.Net ℚ)
          { Path := "/", cep := "99999999", Header := [] }).2 = 1
      ∧ callsTo .weatherapi
        (ServiceB.Handler (sampleNet "true" (.unreachable "unused") : ServiceB.Net ℚ)
          { Path := "/", cep := "99999999", Header := [] }).2 = 0 :=
  (C7_downstream_call_ordering (sampleNet "true" (.unreachable "unused") : ServiceB.Net ℚ)
    { Path := "/", cep := "99999999", Header := [] }).1 (sampleAddress "true")
    ⟨"http://viacep.com.br/ws/99999999/json/", [], by
      rw [downstream_log]
      simp only [GetLocation_log, GetLocation_sample]
      decide⟩
    (GetLocation_sample _ _ _ _) rfl

/-- A request whose body does not decode opens no span, and the valid body with cep
`01001000` opens two: in neither case is exactly one span opened. -/
theorem C9_span_count_counterexample :
    ¬ ((spansOpened (ServiceA.Handler id deadNet { Body := .error .eof }).2).length = 1)
      ∧ ¬ ((spansOpened (ServiceA.Handler id deadNet { Body := .ok "01001000" }).2).length = 1) := by
  constructor <;> decide

/-- The accepted cep `01001000` is non-empty, has byte length 8 and is not answered
with 422 by the downstream handler. -/
theorem C10_edge_check_implies_downstream_check_witness :
    ServiceA.isValidCEP "01001000" = true
      ∧ "01001000" ≠ ""
      ∧ Go.len "01001000" = 8
      ∧ (ServiceB.Handler (sampleNet "" (.unreachable "down") : ServiceB.Net ℚ)
          { Path := "/", cep := "01001000", Header := [] }).1.map (fun rep => rep.status)
          ≠ some 422 :=
  ⟨by decide,
    (@C10_edge_check_implies_downstream_check ℚ _ _ "01001000" (by decide)).1,
    (@C10_edge_check_implies_downstream_check ℚ _ _ "01001000" (by decide)).2.1,
    (@C10_edge_check_implies_downstream_check ℚ _ _ "01001000" (by decide)).2.2.2 _ _⟩
end OTEL
